import Mathlib

/-!
Shallow embedding of the chest X-ray classification service
(`api_only.py`, `ml_api.py`, `railway_starter.py`, `app.py`).

External library calls (OpenCV decode/resize, TensorFlow model load and
forward pass) are abstracted as fields of an `Env` record; the control
flow of the Python handlers, including the exception routing of the
`try/except` nests, is translated faithfully.  A key fact used below:
`fastapi.HTTPException` derives from `Exception`, so an `HTTPException`
raised inside a `try` whose handler is `except Exception` is caught by
that handler.
-/

/-- Opaque handle for a loaded Keras model (`tf.keras.models.load_model` result). -/
abbrev ModelHandle := Nat

/-- A grayscale image as produced by `cv2.imdecode(..., cv2.IMREAD_GRAYSCALE)`:
`img.shape == (height, width)`, `uint8` pixels. -/
structure GrayImage where
  height : Nat
  width : Nat
  pixel : Nat → Nat → Fin 256

/-- Result of `cv2.resize(img, (128, 128))`: a 128×128 `uint8` grid. -/
abbrev Gray128 := Fin 128 → Fin 128 → Fin 256

/-- A float tensor with explicit dimensions, as built by
`img.reshape(1, 128, 128, 1).astype('float32')`. -/
structure Tensor where
  batch : Nat
  height : Nat
  width : Nat
  channels : Nat
  val : Nat → Nat → ℚ

/-- `np.zeros((1, 128, 128, 1), dtype=np.float32)`, the warmup input. -/
def zeroTensor : Tensor := ⟨1, 128, 128, 1, fun _ _ => 0⟩

/-- `img.reshape(1, 128, 128, 1).astype('float32') / 255.0`. -/
def normalizeImage (g : Gray128) : Tensor :=
  ⟨1, 128, 128, 1,
   fun i j => if h : i < 128 ∧ j < 128 then ((g ⟨i, h.1⟩ ⟨j, h.2⟩).val : ℚ) / 255 else 0⟩

/-- The external world: filesystem, OpenCV and TensorFlow.
`Except.error msg` models the library call raising an exception with
message `msg`; `imdecode` returning `none` models `cv2.imdecode`
returning `None` on undecodable bytes. -/
structure Env where
  modelPath : String
  modelFileExists : Bool
  loadModel : Except String ModelHandle
  modelPredict : ModelHandle → Tensor → Except String (List ℚ)
  imdecode : List Nat → Option GrayImage
  resize : GrayImage → Gray128

/-- `CLASS_NAMES = ["Lung_Opacity", "Normal", "Pneumonia"]`. -/
def CLASS_NAMES : List String := ["Lung_Opacity", "Normal", "Pneumonia"]

/-- `valid_types = ["image/jpeg", "image/png", "image/jpg"]`. -/
def validTypes : List String := ["image/jpeg", "image/png", "image/jpg"]

/-- `np.argmax`: index of the first occurrence of the maximum. -/
def argmaxAux : List ℚ → Nat → Nat → ℚ → Nat
  | [], _, best, _ => best
  | x :: xs, i, best, bv => if bv < x then argmaxAux xs (i + 1) i x else argmaxAux xs (i + 1) best bv

/-- `np.argmax` on a vector (0 on the empty list, which `np` rejects upstream). -/
def npArgmax : List ℚ → Nat
  | [] => 0
  | x :: xs => argmaxAux xs 1 0 x

/-- Maximum of a list of probabilities (meaningful on nonempty lists). -/
def listMax (l : List ℚ) : ℚ := l.foldl max (l.headD 0)

/-- The JSON body returned by a successful `/predict`. -/
structure PredictResponse where
  diagnosis : String
  confidence : ℚ
  class_probabilities : List (String × ℚ)
  image_size : String
  deriving DecidableEq

/-- What the handler produces at the HTTP level: a JSON success body or an
`HTTPException` escaping to the framework with a status code and detail. -/
inductive Outcome where
  | success (r : PredictResponse)
  | error (code : Nat) (detail : String)
  deriving DecidableEq

/-- HTTP status code of an outcome (FastAPI serves the success body with 200). -/
def statusOf : Outcome → Nat
  | .success _ => 200
  | .error c _ => c

/-- Python `str` of an `HTTPException`: `f"{status_code}: {detail}"`. -/
def httpStr (code : Nat) (detail : String) : String :=
  toString code ++ ": " ++ detail

/-- Instrumentation recorded while running a predict handler: whether
`cv2.imdecode` was reached, what tensor was fed to the model, how many
forward passes ran, the raw probability row `prediction[0]`, and whether
the handler scheduled the model-loading background task. -/
structure PredictTrace where
  decodeAttempted : Bool
  modelInput : Option Tensor
  forwardPasses : Nat
  modelOutput : Option (List ℚ)
  startedLoadTask : Bool

def emptyTrace : PredictTrace := ⟨false, none, 0, none, false⟩

/-- The image-decoding and classification block shared verbatim by
`api_only.py` (lines 193–253) and `ml_api.py` (lines 120–180), together
with the enclosing `except Exception` (api_only line 255, ml_api line 182)
that rewraps every `HTTPException` raised inside it as a 500.  The inner
`except HTTPException: raise he` re-raises the 400s, but the outer
`except Exception` catches them again, so the client sees 500. -/
def decodeAndClassify (env : Env) (m : ModelHandle) (body : List Nat) :
    Outcome × PredictTrace :=
  match env.imdecode body with
  | none =>
    (.error 500 ("Error processing the request: " ++
        httpStr 400 "Invalid image file. Could not decode the image."),
     ⟨true, none, 0, none, false⟩)
  | some img =>
    let g := env.resize img
    let t := normalizeImage g
    match env.modelPredict m t with
    | .error msg =>
      (.error 500 ("Error processing the request: " ++
          httpStr 400 ("Error processing the image: " ++ msg)),
       ⟨true, some t, 1, none, false⟩)
    | .ok pred =>
      match pred with
      | [] =>
        (.error 500 ("Error processing the request: " ++
            httpStr 400 "Error processing the image: attempt to get argmax of an empty sequence"),
         ⟨true, some t, 1, some [], false⟩)
      | p0 :: ps =>
        let pred := p0 :: ps
        let class_idx := npArgmax pred
        let class_name :=
          if class_idx < CLASS_NAMES.length then CLASS_NAMES.getD class_idx ""
          else "Class_" ++ toString class_idx
        let probability := pred.getD class_idx 0
        (.success
          ⟨class_name,
           probability * 100,
           (CLASS_NAMES.enum.filter fun p => p.1 < pred.length).map
             fun p => (p.2, pred.getD p.1 0),
           toString img.width ++ "x" ++ toString img.height⟩,
         ⟨true, some t, 1, some pred, false⟩)

namespace ApiOnly

/-- Module-level mutable state of `api_only.py`:
`model`, `model_loading`, `model_load_started`, `model_ready`. -/
structure State where
  model : Option ModelHandle
  model_loading : Bool
  model_load_started : Bool
  model_ready : Bool
  deriving DecidableEq

/-- Initial values (api_only lines 46–49). -/
def initState : State := ⟨none, false, false, false⟩

/-- Instrumentation of the background loader: the tensor passed to the
warmup `loaded_model.predict` call, and how many warmup calls ran. -/
structure LoadTrace where
  warmupInput : Option Tensor
  warmupCalls : Nat

/-- `load_model_in_thread` (api_only lines 56–80).  The local
`loaded_model` is published to the global `model` only after the warmup
prediction returns; any exception leaves `model` and `model_ready`
untouched; `model_loading` is cleared in the `finally`. -/
def load_model_in_thread (env : Env) (st : State) : State × LoadTrace :=
  if env.modelFileExists = false then
    ({ st with model_loading := false }, ⟨none, 0⟩)
  else
    match env.loadModel with
    | .error _ => ({ st with model_loading := false }, ⟨none, 0⟩)
    | .ok m =>
      match env.modelPredict m zeroTensor with
      | .error _ => ({ st with model_loading := false }, ⟨some zeroTensor, 1⟩)
      | .ok _ =>
        ({ st with model := some m, model_ready := true, model_loading := false },
         ⟨some zeroTensor, 1⟩)

/-- The successful tail of `load_model_in_thread` as the sequence of
single-variable assignments the thread executes, in source order:
`model = loaded_model` (line 74), then `model_ready = True` (line 75),
then `model_loading = False` (the `finally`, line 80). -/
def loadSuccessSteps (m : ModelHandle) : List (State → State) :=
  [fun st => { st with model := some m },
   fun st => { st with model_ready := true },
   fun st => { st with model_loading := false }]

/-- Run a list of assignments in order. -/
def applySteps : List (State → State) → State → State
  | [], st => st
  | f :: fs, st => applySteps fs (f st)

/-- Result of `load_model_if_needed` (api_only lines 82–109): either the
model, or an `HTTPException` it raises. -/
inductive LoadNeeded where
  | ok (m : ModelHandle)
  | http (code : Nat) (detail : String)
  deriving DecidableEq

/-- `load_model_if_needed` (api_only lines 82–109).  The `Bool` records
whether it spawned a new loader thread. -/
def load_model_if_needed (st : State) : State × LoadNeeded × Bool :=
  match st.model, st.model_ready with
  | some m, true => (st, .ok m, false)
  | _, _ =>
    if st.model_load_started = false then
      ({ st with model_loading := true, model_load_started := true },
       .http 503 "Model loading has started, please try again in a few seconds", true)
    else if st.model_loading = true then
      (st, .http 503 "Model is still loading, please try again in a few seconds", false)
    else
      match st.model with
      | none => (st, .http 503 "Model failed to load, please check logs", false)
      | some m => (st, .ok m, false)

/-- `startup_event` (api_only lines 111–120): sets the flags and spawns
`load_model_in_thread` on a daemon thread. -/
def startup_event (st : State) : State :=
  { st with model_loading := true, model_load_started := true }

/-- `health_check` (api_only lines 133–145): a total function, the route
is declared with `status_code=200` and the body raises nothing. -/
def health_check (st : State) (uptime : String) : Nat × List (String × String) :=
  (200,
   [("status", "healthy"),
    ("message", "API is running"),
    ("model_status", if st.model_ready then "loaded" else "loading"),
    ("uptime", uptime)])

/-- `predict` (api_only lines 159–260).  The content-type check (line 175)
runs before the `try`, so its 415 reaches the client.  Every
`HTTPException` raised inside the `try` starting at line 181 — the 503 of
line 188 and the 400s of the image block — is an `Exception`, so the
outer `except Exception` (line 255) catches it and raises a fresh 500. -/
def predict (env : Env) (st : State) (contentType : String) (body : List Nat) :
    Outcome × PredictTrace :=
  if contentType ∈ validTypes then
    if st.model_ready = false ∨ st.model = none then
      (.error 500 ("Error processing the request: " ++
          httpStr 503 "Model is not ready yet, please try again in a few seconds"),
       ⟨false, none, 0, none, !st.model_load_started⟩)
    else
      match st.model with
      | some m => decodeAndClassify env m body
      | none =>
        (.error 500 "Error processing the request: unreachable", emptyTrace)
  else
    (.error 415 "File type not supported. Must be one of: image/jpeg, image/png, image/jpg",
     emptyTrace)

/-- `unload_model` (api_only lines 262–275): clears `model` and
`model_ready` when the model is loaded; `model_load_started` and
`model_loading` are left as they are. -/
def unload_model (st : State) : State × (String × String) :=
  match st.model with
  | some _ =>
    ({ st with model := none, model_ready := false },
     ("success", "Model unloaded from memory"))
  | none => (st, ("success", "Model was not loaded"))

end ApiOnly

namespace MlApi

/-- The only module-level mutable state in `ml_api.py` is `model`. -/
abbrev State := Option ModelHandle

/-- `load_model_if_needed` (ml_api lines 35–52).  Unlike `api_only.py`,
the global `model` is assigned directly by
`model = tf.keras.models.load_model(...)` (line 44) *before* the warmup
prediction (line 49): a warmup failure raises out of the function but
leaves the global `model` set. -/
def load_model_if_needed (env : Env) (st : State) : State × Except String ModelHandle :=
  match st with
  | some m => (some m, .ok m)
  | none =>
    if env.modelFileExists = false then
      (none, .error ("Model file not found: " ++ env.modelPath))
    else
      match env.loadModel with
      | .error msg => (none, .error msg)
      | .ok m =>
        match env.modelPredict m zeroTensor with
        | .error msg => (some m, .error msg)
        | .ok _ => (some m, .ok m)

/-- `predict` (ml_api lines 87–187).  The 415 (line 104) is raised before
the `try`; the 503 raised at line 115 when loading fails, and the 400s of
the image block, are all caught by the outer `except Exception`
(line 182) and rewrapped as 500. -/
def predict (env : Env) (st : State) (contentType : String) (body : List Nat) :
    State × Outcome × PredictTrace :=
  if contentType ∈ validTypes then
    match load_model_if_needed env st with
    | (st', .error msg) =>
      (st',
       .error 500 ("Error processing the request: " ++
           httpStr 503 ("Model not available: " ++ msg)),
       emptyTrace)
    | (st', .ok m) =>
      let r := decodeAndClassify env m body
      (st', r.1, r.2)
  else
    (st,
     .error 415 "File type not supported. Must be one of: image/jpeg, image/png, image/jpg",
     emptyTrace)

/-- `unload_model` (ml_api lines 189–201). -/
def unload_model (st : State) : State × (String × String) :=
  match st with
  | some _ => (none, ("success", "Model unloaded from memory"))
  | none => (none, ("success", "Model was not loaded"))

end MlApi

namespace Railway

/-- `health_check` in `railway_starter.py` (lines 63–74): total, declared
with `status_code=200`; `model_ready` here is the value imported from
`api_only` at import time. -/
def health_check (model_ready : Bool) (uptime : String) : Nat × List (String × String) :=
  (200,
   [("status", "healthy"),
    ("message", "API is running"),
    ("model_status", if model_ready then "loaded" else "loading"),
    ("uptime", uptime)])

end Railway

/-! Concrete fixtures used by witnesses and counterexamples. -/

/-- A 64×64 all-black uploaded image, as a successful decode result. -/
def demoImg : GrayImage := ⟨64, 64, fun _ _ => 0⟩

/-- A constant 128×128 grid of gray value 100, as a resize result. -/
def flatGray : Gray128 := fun _ _ => (100 : Fin 256)

/-- Happy-path environment: the model file exists, loads as handle 0, and
every forward pass returns the probability row `[0, 1, 0]`. -/
def env1 : Env :=
  ⟨"Model/classification_cnn.h5", true, .ok 0,
   fun _ _ => .ok [0, 1, 0],
   fun _ => some demoImg,
   fun _ => flatGray⟩

/-- Environment whose `cv2.imdecode` returns `None` on every input. -/
def envDecodeFail : Env := { env1 with imdecode := fun _ => none }

/-- Environment where `tf.keras.models.load_model` raises. -/
def envLoadFail : Env := { env1 with loadModel := .error "load boom" }

/-- Environment where every forward pass (warmup included) raises. -/
def envWarmupFail : Env := { env1 with modelPredict := fun _ _ => .error "warmup boom" }

/-- `api_only` state with the model loaded and ready. -/
def stReady : ApiOnly.State := ⟨some 0, false, true, true⟩

/-- `api_only` state while the loader thread is still running. -/
def stLoading : ApiOnly.State := ⟨none, true, true, false⟩

/-- `api_only` state after the loader thread finished unsuccessfully. -/
def stFailed : ApiOnly.State := ⟨none, false, true, false⟩

/-- State reached by hitting `GET /unload-model` while the model is ready. -/
def stAfterUnload : ApiOnly.State := (ApiOnly.unload_model stReady).1

/-- The readiness invariant of `api_only.py`: whenever `model_ready` is
set, the `model` global is non-`None`. -/
def ReadyInv (st : ApiOnly.State) : Prop := st.model_ready = true → st.model ≠ none

/-- `np.argmax` on a three-element row, in closed form. -/
theorem npArgmax_three (a b c : ℚ) :
    npArgmax [a, b, c] = if a < b then (if b < c then 2 else 1) else (if a < c then 2 else 0) := by
  simp only [npArgmax, argmaxAux]

theorem npArgmax_three_lt (a b c : ℚ) : npArgmax [a, b, c] < 3 := by
  rw [npArgmax_three]; split_ifs <;> norm_num

/-- The entry at the arg-max index of a three-element row is its maximum. -/
theorem getD_npArgmax_three (a b c : ℚ) :
    [a, b, c].getD (npArgmax [a, b, c]) 0 = max (max a b) c := by
  rw [npArgmax_three]
  split_ifs with h1 h2 h3
  · show c = max (max a b) c
    rw [max_eq_right h1.le, max_eq_right h2.le]
  · show b = max (max a b) c
    rw [max_eq_right h1.le, max_eq_left (not_lt.mp h2)]
  · show c = max (max a b) c
    rw [max_eq_left (not_lt.mp h1), max_eq_right h3.le]
  · show a = max (max a b) c
    rw [max_eq_left (not_lt.mp h1), max_eq_left (not_lt.mp h3)]

theorem listMax_three (a b c : ℚ) : listMax [a, b, c] = max (max a b) c := by
  simp only [listMax, List.foldl, List.headD]
  rw [max_self]

/-- Every exit of the shared image block is a success or a 500: the 400s
raised inside it are rewrapped by the outer `except Exception`. -/
theorem statusOf_decodeAndClassify (env : Env) (m : ModelHandle) (body : List Nat) :
    statusOf (decodeAndClassify env m body).1 = 200 ∨
    statusOf (decodeAndClassify env m body).1 = 500 := by
  unfold decodeAndClassify
  rcases env.imdecode body with _ | img
  · right; rfl
  · simp only
    rcases env.modelPredict m (normalizeImage (env.resize img)) with msg | pred
    · right; rfl
    · rcases pred with _ | ⟨p0, ps⟩
      · right; rfl
      · left; rfl

/-- C8: `GET /health` returns HTTP 200 in every reachable state of the
service and never raises: both `api_only.health_check` and the overriding
`railway_starter.health_check` are total functions whose status is the
constant 200, whatever the model state and uptime string. -/
theorem c8_health_always_200 (st : ApiOnly.State) (ready : Bool) (u v : String) :
    (ApiOnly.health_check st u).1 = 200 ∧ (Railway.health_check ready v).1 = 200 :=
  ⟨rfl, rfl⟩

/-- C10: unload is idempotent.  When the model is already unloaded,
`unload_model` returns the success body "Model was not loaded" and leaves
the state unchanged, and unloading twice ends in the same state as
unloading once — in both `api_only.py` and `ml_api.py`. -/
theorem c10_unload_idempotent (st : ApiOnly.State) (ms : MlApi.State) :
    (st.model = none → ApiOnly.unload_model st = (st, ("success", "Model was not loaded"))) ∧
    (ApiOnly.unload_model (ApiOnly.unload_model st).1).1 = (ApiOnly.unload_model st).1 ∧
    (ms = none → MlApi.unload_model ms = (ms, ("success", "Model was not loaded"))) ∧
    (MlApi.unload_model (MlApi.unload_model ms).1).1 = (MlApi.unload_model ms).1 := by
  obtain ⟨mo, ml, mst, mr⟩ := st
  refine ⟨?_, ?_, ?_, ?_⟩
  · intro h
    simp only at h
    subst h
    rfl
  · rcases mo with _ | m <;> rfl
  · intro h
    subst h
    rfl
  · rcases ms with _ | m <;> rfl

theorem c10_witness :
    ApiOnly.unload_model ApiOnly.initState = (ApiOnly.initState, ("success", "Model was not loaded")) ∧
    (MlApi.unload_model (MlApi.unload_model (some 0)).1).1 = (MlApi.unload_model (some 0)).1 :=
  ⟨(c10_unload_idempotent ApiOnly.initState (some 0)).1 rfl,
   (c10_unload_idempotent ApiOnly.initState (some 0)).2.2.2⟩

/-- C1, demonstration of the divergence: with an allowed content type and
a model that is not ready — never loaded (`initState`), still loading
(`stLoading`), or failed (`stFailed`) — `predict` answers 500, not 503:
the 503 `HTTPException` it raises inside the `try` is an `Exception`, so
the outer `except Exception` catches it and raises a fresh 500.  The same
happens in `ml_api.py` when the model cannot be loaded. -/
theorem c1_not_ready_answers_500_not_503 :
    statusOf (ApiOnly.predict env1 ApiOnly.initState "image/jpeg" []).1 = 500 ∧
    statusOf (ApiOnly.predict env1 stLoading "image/jpeg" []).1 = 500 ∧
    statusOf (ApiOnly.predict env1 stFailed "image/jpeg" []).1 = 500 ∧
    (MlApi.predict envLoadFail none "image/jpeg" []).2.1 =
      Outcome.error 500 ("Error processing the request: " ++
        httpStr 503 "Model not available: load boom") :=
  ⟨rfl, rfl, rfl, rfl⟩

/-- C2, demonstration of the divergence: after `READY → UNLOADED`,
`model_load_started` is still `true`, so the next predict request does
not schedule the loading task (`startedLoadTask = false`), it just fails;
and `load_model_if_needed` raises "Model failed to load" without spawning
a loader thread.  Loading is never re-triggered. -/
theorem c2_unload_then_predict_never_reloads :
    stAfterUnload = ⟨none, false, true, false⟩ ∧
    statusOf (ApiOnly.predict env1 stAfterUnload "image/jpeg" []).1 = 500 ∧
    (ApiOnly.predict env1 stAfterUnload "image/jpeg" []).2.startedLoadTask = false ∧
    (ApiOnly.load_model_if_needed stAfterUnload).2.2 = false ∧
    (ApiOnly.load_model_if_needed stAfterUnload).2.1 =
      ApiOnly.LoadNeeded.http 503 "Model failed to load, please check logs" ∧
    (ApiOnly.load_model_if_needed stAfterUnload).1 = stAfterUnload :=
  ⟨rfl, rfl, rfl, rfl, rfl, rfl⟩

/-- C3, demonstration of the divergence: with a ready model and an
allowed content type, a body that `cv2.imdecode` cannot decode yields a
500, not a 400: the 400 is re-raised by `except HTTPException` but then
caught by the outer `except Exception` and rewrapped. -/
theorem c3_undecodable_answers_500_not_400 :
    (ApiOnly.predict envDecodeFail stReady "image/jpeg" [1, 2, 3]).1 =
      Outcome.error 500 ("Error processing the request: " ++
        httpStr 400 "Invalid image file. Could not decode the image.") ∧
    (MlApi.predict envDecodeFail (some 0) "image/jpeg" [1, 2, 3]).2.1 =
      Outcome.error 500 ("Error processing the request: " ++
        httpStr 400 "Invalid image file. Could not decode the image.") :=
  ⟨rfl, rfl⟩

/-- C9: every operation of `api_only.py` preserves the invariant
"`model_ready` implies `model` is non-`None`"; the successful tail of the
loader thread, taken one assignment at a time in source order
(`model = loaded_model`, then `model_ready = True`, then
`model_loading = False`), keeps the invariant at every intermediate
state; and that assignment sequence is exactly what the successful branch
of `load_model_in_thread` executes. -/
theorem c9_ready_implies_model_invariant (env : Env) (st : ApiOnly.State) (m : ModelHandle)
    (h : ReadyInv st) :
    ReadyInv (ApiOnly.startup_event st) ∧
    ReadyInv (ApiOnly.load_model_in_thread env st).1 ∧
    ReadyInv (ApiOnly.load_model_if_needed st).1 ∧
    ReadyInv (ApiOnly.unload_model st).1 ∧
    (∀ n, ReadyInv (ApiOnly.applySteps ((ApiOnly.loadSuccessSteps m).take n) st)) ∧
    (env.modelFileExists = true → env.loadModel = Except.ok m →
      ∀ o, env.modelPredict m zeroTensor = Except.ok o →
        (ApiOnly.load_model_in_thread env st).1 = ApiOnly.applySteps (ApiOnly.loadSuccessSteps m) st) := by
  refine ⟨fun hr => h hr, ?_, ?_, ?_, ?_, ?_⟩
  · unfold ApiOnly.load_model_in_thread
    split
    · exact fun hr => h hr
    · split
      · exact fun hr => h hr
      · split
        · exact fun hr => h hr
        · intro _; simp
  · unfold ApiOnly.load_model_if_needed
    split
    · exact h
    · split
      · exact fun hr => h hr
      · split
        · exact h
        · split
          · exact h
          · exact h
  · unfold ApiOnly.unload_model
    split
    · intro hr; exact absurd hr (by simp)
    · exact h
  · intro n
    rcases n with _ | _ | _ | n
    · exact h
    · intro _
      simp [ApiOnly.loadSuccessSteps, ApiOnly.applySteps]
    · intro _
      simp [ApiOnly.loadSuccessSteps, ApiOnly.applySteps]
    · intro _
      simp [ApiOnly.loadSuccessSteps, ApiOnly.applySteps]
  · intro hf hl o ho
    simp [ApiOnly.load_model_in_thread, hf, hl, ho, ApiOnly.applySteps, ApiOnly.loadSuccessSteps]

theorem c9_witness :
    ReadyInv (ApiOnly.startup_event ApiOnly.initState) ∧
    ReadyInv (ApiOnly.load_model_in_thread env1 ApiOnly.initState).1 := by
  have hc := c9_ready_implies_model_invariant env1 ApiOnly.initState 0
    (by intro hr; simp [ApiOnly.initState] at hr)
  exact ⟨hc.1, hc.2.1⟩

/-- C7, counterexample: in `ml_api.py`, `load_model_if_needed` assigns
the shared global `model` right after `tf.keras.models.load_model`
returns and *before* the warmup prediction, so when the warmup raises,
the function propagates the exception but leaves `model` set — the claim
that "if either fails, the model stays unset" is false there. -/
theorem c7_counterexample_mlapi_sets_model_before_warmup :
    (MlApi.load_model_if_needed envWarmupFail none).2 = Except.error "warmup boom" ∧
    (MlApi.load_model_if_needed envWarmupFail none).1 = some 0 :=
  ⟨rfl, rfl⟩

/-- C7, amended: in `load_model_in_thread` of `api_only.py` the claimed
property does hold.  Starting from an unloaded state: whenever the model
file exists and the load succeeds, exactly one warmup inference runs, on
the zero-filled tensor of shape (1,128,128,1); and the shared `model` and
`model_ready` are set if and only if both the load and the warmup
succeeded — on any failure both stay unset. -/
theorem c7_apionly_warmup_gates_publication (env : Env) (st : ApiOnly.State)
    (hm : st.model = none) (hr : st.model_ready = false) :
    (∀ m, env.modelFileExists = true → env.loadModel = Except.ok m →
      (ApiOnly.load_model_in_thread env st).2.warmupInput = some zeroTensor ∧
      (ApiOnly.load_model_in_thread env st).2.warmupCalls = 1) ∧
    (zeroTensor.batch = 1 ∧ zeroTensor.height = 128 ∧ zeroTensor.width = 128 ∧
      zeroTensor.channels = 1 ∧ ∀ i j, zeroTensor.val i j = 0) ∧
    ((ApiOnly.load_model_in_thread env st).1.model ≠ none ↔
      env.modelFileExists = true ∧ ∃ m o, env.loadModel = Except.ok m ∧
        env.modelPredict m zeroTensor = Except.ok o) ∧
    ((ApiOnly.load_model_in_thread env st).1.model_ready = true ↔
      env.modelFileExists = true ∧ ∃ m o, env.loadModel = Except.ok m ∧
        env.modelPredict m zeroTensor = Except.ok o) := by
  rcases hf : env.modelFileExists with _ | _
  · refine ⟨?_, ⟨rfl, rfl, rfl, rfl, fun _ _ => rfl⟩, ?_, ?_⟩
    · intro m hf2
      exact absurd hf2 (by simp)
    · simp [ApiOnly.load_model_in_thread, hf, hm]
    · simp [ApiOnly.load_model_in_thread, hf, hr]
  · rcases hl : env.loadModel with msg | m'
    · refine ⟨?_, ⟨rfl, rfl, rfl, rfl, fun _ _ => rfl⟩, ?_, ?_⟩
      · intro m _ hl2
        exact absurd hl2 (by simp)
      · simp [ApiOnly.load_model_in_thread, hf, hl, hm]
      · simp [ApiOnly.load_model_in_thread, hf, hl, hr]
    · refine ⟨?_, ⟨rfl, rfl, rfl, rfl, fun _ _ => rfl⟩, ?_, ?_⟩
      · intro m _ hl2
        injection hl2 with hm2
        subst hm2
        rcases hp : env.modelPredict m' zeroTensor with msg2 | o2 <;>
          simp [ApiOnly.load_model_in_thread, hf, hl, hp]
      · rcases hp : env.modelPredict m' zeroTensor with msg2 | o2
        · simp [ApiOnly.load_model_in_thread, hf, hl, hp, hm]
        · simp [ApiOnly.load_model_in_thread, hf, hl, hp, hm]
      · rcases hp : env.modelPredict m' zeroTensor with msg2 | o2
        · simp [ApiOnly.load_model_in_thread, hf, hl, hp, hr]
        · simp [ApiOnly.load_model_in_thread, hf, hl, hp, hr]

theorem c7_witness :
    ((ApiOnly.load_model_in_thread env1 ApiOnly.initState).2.warmupInput = some zeroTensor ∧
      (ApiOnly.load_model_in_thread env1 ApiOnly.initState).2.warmupCalls = 1) ∧
    ((ApiOnly.load_model_in_thread env1 ApiOnly.initState).1.model ≠ none ↔
      env1.modelFileExists = true ∧ ∃ m o, env1.loadModel = Except.ok m ∧
        env1.modelPredict m zeroTensor = Except.ok o) := by
  have hc := c7_apionly_warmup_gates_publication env1 ApiOnly.initState rfl rfl
  exact ⟨hc.1 0 rfl rfl, hc.2.2.1⟩

/-- C5: a declared content type outside {image/jpeg, image/png, image/jpg}
is rejected with 415 before any decode is attempted (the result does not
depend on the body, and the decode step is never reached), while an
allowed content type never produces a 415 — in both `api_only.py` and
`ml_api.py`. -/
theorem c5_content_type_gate (env : Env) (st : ApiOnly.State) (ms : MlApi.State)
    (ct : String) (body : List Nat) :
    (ct ∉ validTypes →
      (ApiOnly.predict env st ct body).1 =
        Outcome.error 415 "File type not supported. Must be one of: image/jpeg, image/png, image/jpg" ∧
      (ApiOnly.predict env st ct body).2.decodeAttempted = false ∧
      (MlApi.predict env ms ct body).2.1 =
        Outcome.error 415 "File type not supported. Must be one of: image/jpeg, image/png, image/jpg" ∧
      (MlApi.predict env ms ct body).2.2.decodeAttempted = false) ∧
    (ct ∈ validTypes →
      statusOf (ApiOnly.predict env st ct body).1 ≠ 415 ∧
      statusOf (MlApi.predict env ms ct body).2.1 ≠ 415) := by
  constructor
  · intro h
    refine ⟨?_, ?_, ?_, ?_⟩ <;> simp [ApiOnly.predict, MlApi.predict, h, emptyTrace]
  · intro h
    constructor
    · unfold ApiOnly.predict
      rw [if_pos h]
      split
      · norm_num [statusOf]
      · split
        · rename_i m heq
          rcases statusOf_decodeAndClassify env m body with h2 | h2 <;> omega
        · norm_num [statusOf]
    · unfold MlApi.predict
      rw [if_pos h]
      split
      · norm_num [statusOf]
      · rename_i st2 m heq
        have h2 := statusOf_decodeAndClassify env m body
        rcases h2 with h2 | h2 <;>
          · show statusOf (decodeAndClassify env m body).1 ≠ 415
            omega

theorem c5_witness :
    (ApiOnly.predict env1 stReady "text/plain" []).1 =
      Outcome.error 415 "File type not supported. Must be one of: image/jpeg, image/png, image/jpg" ∧
    statusOf (ApiOnly.predict env1 stReady "image/png" []).1 ≠ 415 :=
  ⟨((c5_content_type_gate env1 stReady none "text/plain" []).1 (by decide)).1,
   ((c5_content_type_gate env1 stReady none "image/png" []).2 (by decide)).1⟩

/-- C6: with a ready model and a decodable upload of any resolution,
`predict` feeds the model exactly once, with the tensor obtained from the
128×128 resize of the image, reshaped to (1,128,128,1) and divided by
255, so every entry lies in [0,1]. -/
theorem c6_preprocessing_normalizes (env : Env) (st : ApiOnly.State) (m : ModelHandle)
    (ct : String) (body : List Nat) (img : GrayImage)
    (hm : st.model = some m) (hr : st.model_ready = true)
    (hct : ct ∈ validTypes) (hd : env.imdecode body = some img) :
    (ApiOnly.predict env st ct body).2.modelInput = some (normalizeImage (env.resize img)) ∧
    (ApiOnly.predict env st ct body).2.forwardPasses = 1 ∧
    (normalizeImage (env.resize img)).batch = 1 ∧
    (normalizeImage (env.resize img)).height = 128 ∧
    (normalizeImage (env.resize img)).width = 128 ∧
    (normalizeImage (env.resize img)).channels = 1 ∧
    (∀ i j, (hi : i < 128) → (hj : j < 128) →
      (normalizeImage (env.resize img)).val i j =
        ((env.resize img ⟨i, hi⟩ ⟨j, hj⟩).val : ℚ) / 255) ∧
    (∀ i j, 0 ≤ (normalizeImage (env.resize img)).val i j ∧
      (normalizeImage (env.resize img)).val i j ≤ 1) := by
  have hguard : ¬(st.model_ready = false ∨ st.model = none) := by simp [hm, hr]
  have hpred : ApiOnly.predict env st ct body = decodeAndClassify env m body := by
    unfold ApiOnly.predict
    rw [if_pos hct, if_neg hguard, hm]
  rw [hpred]
  have htr : (decodeAndClassify env m body).2.modelInput = some (normalizeImage (env.resize img)) ∧
      (decodeAndClassify env m body).2.forwardPasses = 1 := by
    rcases hp : env.modelPredict m (normalizeImage (env.resize img)) with msg | pred
    · simp [decodeAndClassify, hd, hp]
    · rcases pred with _ | ⟨p0, ps⟩ <;> simp [decodeAndClassify, hd, hp]
  refine ⟨htr.1, htr.2, rfl, rfl, rfl, rfl, ?_, ?_⟩
  · intro i j hi hj
    simp [normalizeImage, hi, hj]
  · intro i j
    simp only [normalizeImage]
    split
    · rename_i hij
      constructor
      · positivity
      · rw [div_le_one (by norm_num : (0:ℚ) < 255)]
        have hlt := (env.resize img ⟨i, hij.1⟩ ⟨j, hij.2⟩).isLt
        exact_mod_cast Nat.le_of_lt_succ hlt
    · norm_num

/-- C4: for every successful prediction whose probability row has the 3
entries the network emits, the reported diagnosis is the class name at
the arg-max index of that row and the reported confidence is the maximum
probability times 100. -/
theorem c4_diagnosis_is_argmax_confidence_is_max (env : Env) (st : ApiOnly.State)
    (ct : String) (body : List Nat) (r : PredictResponse) (o : List ℚ)
    (hs : (ApiOnly.predict env st ct body).1 = Outcome.success r)
    (ho : (ApiOnly.predict env st ct body).2.modelOutput = some o)
    (h3 : o.length = 3) :
    r.diagnosis = CLASS_NAMES.getD (npArgmax o) "" ∧
    r.confidence = listMax o * 100 := by
  by_cases hct : ct ∈ validTypes
  · by_cases hg : st.model_ready = false ∨ st.model = none
    · have hpr : (ApiOnly.predict env st ct body).1 =
          Outcome.error 500 ("Error processing the request: " ++
            httpStr 503 "Model is not ready yet, please try again in a few seconds") := by
        unfold ApiOnly.predict
        rw [if_pos hct, if_pos hg]
      rw [hpr] at hs
      exact absurd hs (by simp)
    · rcases hm : st.model with _ | m
      · exact absurd (Or.inr hm) hg
      · have hpr : ApiOnly.predict env st ct body = decodeAndClassify env m body := by
          unfold ApiOnly.predict
          rw [if_pos hct, if_neg hg, hm]
        rw [hpr] at hs ho
        rcases hd : env.imdecode body with _ | img
        · simp [decodeAndClassify, hd] at hs
        · rcases hq : env.modelPredict m (normalizeImage (env.resize img)) with msg | pred
          · simp [decodeAndClassify, hd, hq] at hs
          · rcases pred with _ | ⟨a, ps⟩
            · simp [decodeAndClassify, hd, hq] at hs
            · simp only [decodeAndClassify, hd, hq, Outcome.success.injEq,
                Option.some.injEq] at hs ho
              subst hs
              subst ho
              rcases ps with _ | ⟨b, ps⟩
              · simp at h3
              rcases ps with _ | ⟨c, ps⟩
              · simp at h3
              rcases ps with _ | ⟨d, ps⟩
              · constructor
                · show (if npArgmax [a, b, c] < CLASS_NAMES.length then
                      CLASS_NAMES.getD (npArgmax [a, b, c]) ""
                    else "Class_" ++ toString (npArgmax [a, b, c])) =
                      CLASS_NAMES.getD (npArgmax [a, b, c]) ""
                  rw [if_pos]
                  exact npArgmax_three_lt a b c
                · show [a, b, c].getD (npArgmax [a, b, c]) 0 * 100 = listMax [a, b, c] * 100
                  rw [getD_npArgmax_three, listMax_three]
              · simp at h3
  · have hpr : (ApiOnly.predict env st ct body).1 =
        Outcome.error 415 "File type not supported. Must be one of: image/jpeg, image/png, image/jpg" := by
      unfold ApiOnly.predict
      rw [if_neg hct]
    rw [hpr] at hs
    exact absurd hs (by simp)

theorem c4_witness :
    (ApiOnly.predict env1 stReady "image/png" []).1 =
      Outcome.success ⟨"Normal", 1 * 100,
        [("Lung_Opacity", 0), ("Normal", 1), ("Pneumonia", 0)], "64x64"⟩ ∧
    "Normal" = CLASS_NAMES.getD (npArgmax [0, 1, 0]) "" ∧
    (1 * 100 : ℚ) = listMax [0, 1, 0] * 100 := by
  have hs : (ApiOnly.predict env1 stReady "image/png" []).1 =
      Outcome.success ⟨"Normal", 1 * 100,
        [("Lung_Opacity", 0), ("Normal", 1), ("Pneumonia", 0)], "64x64"⟩ := by
    rfl
  have hc := c4_diagnosis_is_argmax_confidence_is_max env1 stReady "image/png" [] _
    [0, 1, 0] hs rfl rfl
  exact ⟨hs, hc.1, hc.2⟩

theorem c6_witness :
    (ApiOnly.predict env1 stReady "image/png" []).2.modelInput =
      some (normalizeImage (env1.resize demoImg)) ∧
    (ApiOnly.predict env1 stReady "image/png" []).2.forwardPasses = 1 ∧
    (∀ i j, 0 ≤ (normalizeImage (env1.resize demoImg)).val i j ∧
      (normalizeImage (env1.resize demoImg)).val i j ≤ 1) := by
  have hc := c6_preprocessing_normalizes env1 stReady 0 "image/png" [] demoImg
    rfl rfl (by decide) rfl
  exact ⟨hc.1, hc.2.1, hc.2.2.2.2.2.2.2⟩
